import Mathlib

set_option autoImplicit false
set_option linter.unusedVariables false

/-!
Verification development for the CareOps backend: a shallow embedding of the
booking-availability slot generator, the public booking flow, the automation
handlers and the scheduled sweeps, translated from the JavaScript source
(`src/routes/public.js`, `src/services/automation.js`,
`src/services/scheduler.js`, `src/services/webhook.js`), together with
theorems settling the specified properties.
-/

namespace CareOps

/-! ## Slot generator (`GET /:workspaceId/available-slots`, src/routes/public.js)

Wall-clock times inside a day are minutes-of-day (`Nat`); absolute instants
are milliseconds since the epoch (`Int`), mirroring JavaScript `Date.getTime()`.
-/

/-- The candidate-start loop of the slot generator:
`while (currentMinutes + duration <= endMinutes) { push; currentMinutes += duration }`.
The JavaScript loop does not terminate for `duration = 0`; the guard `0 < duration`
makes the Lean function total (all claims assume a positive service duration). -/
def slotStarts (cur endMinutes duration : Nat) : List Nat :=
  if h : 0 < duration ∧ cur + duration ≤ endMinutes then
    cur :: slotStarts (cur + duration) endMinutes duration
  else
    []
termination_by endMinutes - cur
decreasing_by omega

/-- Closed form of the candidate loop: starts are `S, S+D, …`, one per full
multiple of `D` that fits in `[S, E)`. -/
theorem slotStarts_eq_range_map (D : Nat) (hD : 0 < D) (E : Nat) :
    ∀ n S, E - S ≤ n →
      slotStarts S E D = (List.range ((E - S) / D)).map (fun k => S + k * D) := by
  intro n
  induction n with
  | zero =>
    intro S h
    rw [slotStarts]
    have h1 : ¬ (0 < D ∧ S + D ≤ E) := by omega
    rw [dif_neg h1]
    have h2 : (E - S) / D = 0 := by
      have : E - S = 0 := by omega
      simp [this]
    simp [h2]
  | succ n ih =>
    intro S h
    rw [slotStarts]
    by_cases hc : S + D ≤ E
    · rw [dif_pos ⟨hD, hc⟩]
      rw [ih (S + D) (by omega)]
      have hdiv : (E - S) / D = (E - (S + D)) / D + 1 := by
        have h1 : D ≤ E - S := by omega
        rw [Nat.div_eq_sub_div hD h1]
        congr 2
        omega
      rw [hdiv, List.range_succ_eq_map]
      simp only [List.map_cons, Nat.zero_mul, Nat.add_zero, List.map_map]
      congr 1
      apply List.map_congr_left
      intro k _
      simp only [Function.comp_apply, Nat.succ_eq_add_one]
      ring
    · rw [dif_neg (by omega)]
      have h2 : (E - S) / D = 0 := Nat.div_eq_of_lt (by omega)
      simp [h2]

/-- C1: for every availability window `[S,E)` (wall-clock minutes) and every
service duration `D > 0`, the candidate loop produces exactly `⌊(E-S)/D⌋`
slots, the `k`-th starting at `S + k*D`; a window shorter than `D` yields no
slots (no partial slot at the window's end). -/
theorem C1_slot_generation (S E D : Nat) (hD : 0 < D) :
    (slotStarts S E D).length = (E - S) / D ∧
    (∀ k : Nat, ∀ hk : k < (slotStarts S E D).length,
      (slotStarts S E D).get ⟨k, hk⟩ = S + k * D) ∧
    (E < S + D → slotStarts S E D = []) := by
  have hclosed := slotStarts_eq_range_map D hD E (E - S) S (Nat.le_refl _)
  refine ⟨?_, ?_, ?_⟩
  · rw [hclosed]; simp
  · intro k hk
    simp only [List.get_eq_getElem]
    rw [List.getElem_of_eq hclosed]
    simp
  · intro hlt
    rw [hclosed]
    have : (E - S) / D = 0 := Nat.div_eq_of_lt (by omega)
    simp [this]

theorem C1_slot_generation_witness :
    0 < 30 ∧ (slotStarts 540 720 30).length = (720 - 540) / 30 :=
  ⟨by decide, (C1_slot_generation 540 720 30 (by decide)).1⟩

/-! ## Overlap filtering against existing bookings (same route) -/

/-- A persisted booking row (`Booking` table). `dateTime`/`endTime` are epoch
milliseconds. -/
structure BookingRow where
  id : Nat
  workspaceId : Nat
  contactId : Nat
  serviceTypeId : Nat
  dateTime : Int
  endTime : Int
  status : String
  notes : Option String
  deriving Repr, DecidableEq

/-- `String(n).padStart(2, '0')`. -/
def pad2 (n : Nat) : String :=
  if n < 10 then "0" ++ toString n else toString n

/-- The `HH:MM` slot label built in the loop body. -/
def minutesToHM (m : Nat) : String :=
  pad2 (m / 60) ++ ":" ++ pad2 (m % 60)

/-- A slot as emitted by the route. -/
structure Slot where
  time : String
  startTime : Int
  endTime : Int
  deriving Repr, DecidableEq

def msPerMinute : Int := 60000

/-- Strict half-open interval overlap test: `slotStart < bEnd && slotEnd > bStart`. -/
def overlapsB (slotStart slotEnd bStart bEnd : Int) : Bool :=
  decide (slotStart < bEnd) && decide (slotEnd > bStart)

/-- `existingBookings.some(b => slotStart < bEnd && slotEnd > bStart)`. -/
def isBooked (slotStart slotEnd : Int) (bs : List BookingRow) : Bool :=
  bs.any fun b => overlapsB slotStart slotEnd b.dateTime b.endTime

/-- The `prisma.booking.findMany` query of the route: same service type,
`dateTime` within the requested day, `status: { not: 'CANCELLED' }`. -/
def fetchDayBookings (serviceTypeId : Nat) (dayStart dayEnd : Int)
    (bs : List BookingRow) : List BookingRow :=
  bs.filter fun b =>
    b.serviceTypeId == serviceTypeId && decide (dayStart ≤ b.dateTime) &&
      decide (b.dateTime ≤ dayEnd) && !(b.status == "CANCELLED")

/-- The slot record assembled in the loop body; `dayBase` is midnight of the
requested date in epoch milliseconds (`new Date(date).setHours(0,0,0,0)`). -/
def mkSlot (dayBase : Int) (duration : Nat) (m : Nat) : Slot :=
  { time := minutesToHM m
    startTime := dayBase + (m : Int) * msPerMinute
    endTime := dayBase + (m : Int) * msPerMinute + (duration : Int) * msPerMinute }

/-- Slots contributed by one availability window: each candidate start is kept
iff it does not overlap any fetched booking. -/
def windowSlots (dayBase : Int) (duration : Nat) (existing : List BookingRow)
    (startMinutes endMinutes : Nat) : List Slot :=
  (slotStarts startMinutes endMinutes duration).filterMap fun m =>
    if isBooked (mkSlot dayBase duration m).startTime
        (mkSlot dayBase duration m).endTime existing then
      none
    else
      some (mkSlot dayBase duration m)

theorem mkSlot_injective (dayBase : Int) (D : Nat) (m m' : Nat)
    (h : mkSlot dayBase D m' = mkSlot dayBase D m) : m' = m := by
  have hst : dayBase + (m' : Int) * msPerMinute = dayBase + (m : Int) * msPerMinute := by
    have := congrArg Slot.startTime h
    simpa [mkSlot] using this
  have : (m' : Int) = (m : Int) := by
    have h60 : (msPerMinute : Int) ≠ 0 := by norm_num [msPerMinute]
    have := add_left_cancel hst
    exact mul_right_cancel₀ h60 this
  exact_mod_cast this

/-- C2: a candidate slot is emitted iff no booking of that service type within
the requested day whose status is not CANCELLED strictly overlaps it
(`slotStart < bEnd && slotEnd > bStart`); in particular a slot exactly
abutting a booking is emitted, and CANCELLED bookings never exclude a slot. -/
theorem C2_overlap_filter (dayBase : Int) (D : Nat) (hD : 0 < D)
    (stid : Nat) (all : List BookingRow) (S E m : Nat) :
    mkSlot dayBase D m ∈
        windowSlots dayBase D (fetchDayBookings stid dayBase (dayBase + 86399999) all) S E
      ↔ m ∈ slotStarts S E D ∧
        ∀ b ∈ all, b.serviceTypeId = stid → dayBase ≤ b.dateTime →
          b.dateTime ≤ dayBase + 86399999 → b.status ≠ "CANCELLED" →
          ¬((mkSlot dayBase D m).startTime < b.endTime ∧
            (mkSlot dayBase D m).endTime > b.dateTime) := by
  unfold windowSlots
  rw [List.mem_filterMap]
  constructor
  · rintro ⟨m', hm', hf⟩
    split at hf
    · exact absurd hf (by simp)
    · rename_i hnb
      have heq : mkSlot dayBase D m' = mkSlot dayBase D m := by
        simpa using hf
      have hmm : m' = m := mkSlot_injective dayBase D m m' heq
      subst hmm
      refine ⟨hm', ?_⟩
      intro b hb hstid hge hle hstatus hov
      apply hnb
      unfold isBooked
      rw [List.any_eq_true]
      refine ⟨b, ?_, ?_⟩
      · unfold fetchDayBookings
        rw [List.mem_filter]
        refine ⟨hb, ?_⟩
        simp [hstid, hge, hle, hstatus]
      · unfold overlapsB
        simp only [Bool.and_eq_true, decide_eq_true_eq]
        exact ⟨hov.1, hov.2⟩
  · rintro ⟨hm, hnoov⟩
    refine ⟨m, hm, ?_⟩
    have hnb : isBooked (mkSlot dayBase D m).startTime (mkSlot dayBase D m).endTime
        (fetchDayBookings stid dayBase (dayBase + 86399999) all) = false := by
      unfold isBooked
      rw [List.any_eq_false]
      intro b hb
      unfold fetchDayBookings at hb
      rw [List.mem_filter] at hb
      obtain ⟨hball, hcond⟩ := hb
      simp only [Bool.and_eq_true, beq_iff_eq, decide_eq_true_eq, Bool.not_eq_true',
        beq_eq_false_iff_ne, ne_eq] at hcond
      obtain ⟨⟨⟨hstid, hge⟩, hle⟩, hstatus⟩ := hcond
      unfold overlapsB
      have hthis := hnoov b hball hstid hge hle hstatus
      by_cases h1 : (mkSlot dayBase D m).startTime < b.endTime
      · have h2 : ¬ (mkSlot dayBase D m).endTime > b.dateTime := fun h2 => hthis ⟨h1, h2⟩
        simp [h1, h2]
      · simp [h1]
    rw [hnb]
    simp

/-- Concrete booking ending exactly at the 10:30 candidate slot, to exercise
the abutting-slot case of `C2_overlap_filter`. -/
def abutBooking : BookingRow :=
  ⟨7, 1, 2, 1, 600 * 60000, 630 * 60000, "CONFIRMED", none⟩

theorem C2_overlap_filter_witness :
    0 < 30 ∧
    (mkSlot 0 30 630 ∈
        windowSlots 0 30 (fetchDayBookings 1 0 (0 + 86399999) [abutBooking]) 600 660
      ↔ 630 ∈ slotStarts 600 660 30 ∧
        ∀ b ∈ [abutBooking],
          b.serviceTypeId = 1 → (0 : Int) ≤ b.dateTime →
          b.dateTime ≤ 0 + 86399999 → b.status ≠ "CANCELLED" →
          ¬((mkSlot 0 30 630).startTime < b.endTime ∧
            (mkSlot 0 30 630).endTime > b.dateTime)) :=
  ⟨by decide, C2_overlap_filter 0 30 (by decide) 1 [abutBooking] 600 660 630⟩

/-! ## Relational store

One record type per Prisma table touched by the claims, plus a `DB` structure
holding the tables. Row ids come from a `nextId` counter (Prisma generates
cuids; only freshness matters). JSON `config` blobs of integrations are
projected to the two fields the webhook service reads (`url`, `secret`). -/

structure Workspace where
  id : Nat
  name : String
  isActive : Bool
  deriving Repr, DecidableEq

structure UserRow where
  id : Nat
  workspaceId : Nat
  role : String
  email : Option String
  deriving Repr, DecidableEq

structure Contact where
  id : Nat
  workspaceId : Nat
  name : String
  email : Option String
  phone : Option String
  source : String
  deriving Repr, DecidableEq

structure Conversation where
  id : Nat
  workspaceId : Nat
  contactId : Nat
  status : String
  automationPaused : Bool
  deriving Repr, DecidableEq

structure MessageRow where
  conversationId : Nat
  direction : String
  channel : String
  content : String
  deriving Repr, DecidableEq

structure ServiceTypeRow where
  id : Nat
  workspaceId : Nat
  name : String
  duration : Nat
  location : Option String
  deriving Repr, DecidableEq

structure FormTemplateRow where
  id : Nat
  workspaceId : Nat
  name : String
  linkedServiceTypeId : Option Nat
  deriving Repr, DecidableEq

structure FormSubmissionRow where
  id : Nat
  formTemplateId : Nat
  bookingId : Option Nat
  contactId : Nat
  status : String
  dueDate : Option Int
  data : Option String
  deriving Repr, DecidableEq

structure AlertRow where
  workspaceId : Nat
  atype : String
  message : String
  link : String
  deriving Repr, DecidableEq

structure LogRow where
  workspaceId : Nat
  event : String
  logAction : Option String
  contactId : Option Nat
  status : String
  details : Option String
  createdAt : Int
  deriving Repr, DecidableEq

structure Integration where
  id : Nat
  workspaceId : Nat
  itype : String
  isActive : Bool
  url : Option String
  secret : Option String
  deriving Repr, DecidableEq

structure InventoryItemRow where
  id : Nat
  workspaceId : Nat
  name : String
  quantity : Int
  threshold : Int
  unit : String
  deriving Repr, DecidableEq

structure DB where
  workspaces : List Workspace
  users : List UserRow
  contacts : List Contact
  conversations : List Conversation
  messages : List MessageRow
  bookings : List BookingRow
  serviceTypes : List ServiceTypeRow
  formTemplates : List FormTemplateRow
  formSubmissions : List FormSubmissionRow
  alerts : List AlertRow
  automationLogs : List LogRow
  integrations : List Integration
  inventoryItems : List InventoryItemRow
  nextId : Nat
  deriving Repr, DecidableEq

def findWorkspace (db : DB) (id : Nat) : Option Workspace :=
  db.workspaces.find? fun w => w.id == id

def findServiceType (db : DB) (id : Nat) : Option ServiceTypeRow :=
  db.serviceTypes.find? fun st => st.id == id

def findContactById (db : DB) (id : Nat) : Option Contact :=
  db.contacts.find? fun c => c.id == id

/-- `prisma.contact.findFirst({ where: { workspaceId, email } })`. -/
def findContactByEmail (db : DB) (wsId : Nat) (e : String) : Option Contact :=
  db.contacts.find? fun c => c.workspaceId == wsId && c.email == some e

/-- `prisma.contact.findFirst({ where: { workspaceId, phone } })`. -/
def findContactByPhone (db : DB) (wsId : Nat) (p : String) : Option Contact :=
  db.contacts.find? fun c => c.workspaceId == wsId && c.phone == some p

/-- `prisma.conversation.findFirst({ where: { contactId, workspaceId } })`. -/
def findConversation (db : DB) (contactId wsId : Nat) : Option Conversation :=
  db.conversations.find? fun cv => cv.contactId == contactId && cv.workspaceId == wsId

/-- Contact lookup order of the public booking route:
`if (email) findFirst(email); if (!contact && phone) findFirst(phone)`. -/
def resolveContact (db : DB) (wsId : Nat) (email phone : Option String) : Option Contact :=
  match email with
  | some e =>
    match findContactByEmail db wsId e with
    | some c => some c
    | none => phone.bind (findContactByPhone db wsId)
  | none => phone.bind (findContactByPhone db wsId)

/-! ## Public booking flow (`POST /:workspaceId/book`, src/routes/public.js)

The route performs its persistence steps sequentially with no enclosing
transaction, so each `prisma.*.create` is a separately fallible step. `Faults`
injects a failure at a chosen step to study partial-failure behaviour. -/

structure BookRequest where
  serviceTypeId : Option Nat
  dateTime : Option Int
  name : String
  email : Option String
  phone : Option String
  notes : Option String
  deriving Repr, DecidableEq

structure Faults where
  contactCreate : Bool
  conversationCreate : Bool
  bookingCreate : Bool
  deriving Repr, DecidableEq

def noFaults : Faults := ⟨false, false, false⟩

inductive BookOutcome where
  | ok (booking : BookingRow)
  | businessNotFound
  | validationError
  | serviceTypeNotFound
  | persistenceError
  deriving Repr, DecidableEq

/-- `// Ensure conversation exists` step; `none` when the injected
`conversation.create` fault fires. -/
def ensureConversation (f : Faults) (wsId : Nat) (c : Contact) (db : DB) : Option DB :=
  match findConversation db c.id wsId with
  | some _ => some db
  | none =>
    if f.conversationCreate then none
    else some { db with
      conversations := db.conversations ++ [⟨db.nextId, wsId, c.id, "open", false⟩]
      nextId := db.nextId + 1 }

/-- `// Create booking` step: `endTime = dateTime + duration minutes`,
status CONFIRMED. -/
def createBooking (f : Faults) (wsId stid : Nat) (dt : Int) (duration : Nat)
    (notes : Option String) (c : Contact) (db : DB) : DB × BookOutcome :=
  if f.bookingCreate then (db, .persistenceError)
  else
    let b : BookingRow :=
      ⟨db.nextId, wsId, c.id, stid, dt, dt + (duration : Int) * msPerMinute,
        "CONFIRMED", notes⟩
    ({ db with bookings := db.bookings ++ [b], nextId := db.nextId + 1 }, .ok b)

def bookSteps (f : Faults) (wsId stid : Nat) (dt : Int) (duration : Nat)
    (notes : Option String) (c : Contact) (db : DB) : DB × BookOutcome :=
  match ensureConversation f wsId c db with
  | none => (db, .persistenceError)
  | some db1 => createBooking f wsId stid dt duration notes c db1

/-- The booking route. Validation and lookups in source order: workspace
active, required fields, email-or-phone, service type, find-or-create
contact (lookup by email then phone; a found contact is used as returned by
`findFirst`, no update), ensure conversation, create booking. -/
def bookHandler (f : Faults) (wsId : Nat) (req : BookRequest) (db : DB) :
    DB × BookOutcome :=
  match findWorkspace db wsId with
  | none => (db, .businessNotFound)
  | some ws =>
    if ws.isActive = false then (db, .businessNotFound)
    else
      match req.serviceTypeId, req.dateTime with
      | some stid, some dt =>
        if req.name = "" then (db, .validationError)
        else if req.email.isNone && req.phone.isNone then (db, .validationError)
        else
          match findServiceType db stid with
          | none => (db, .serviceTypeNotFound)
          | some st =>
            match resolveContact db wsId req.email req.phone with
            | some c => bookSteps f wsId stid dt st.duration req.notes c db
            | none =>
              if f.contactCreate then (db, .persistenceError)
              else
                let c : Contact := ⟨db.nextId, wsId, req.name, req.email, req.phone, "booking"⟩
                bookSteps f wsId stid dt st.duration req.notes c
                  { db with contacts := db.contacts ++ [c], nextId := db.nextId + 1 }
      | _, _ => (db, .validationError)

theorem ensureConversation_bookings (f : Faults) (wsId : Nat) (c : Contact)
    (db db1 : DB) (hec : ensureConversation f wsId c db = some db1) :
    db1.bookings = db.bookings := by
  unfold ensureConversation at hec
  cases hfc : findConversation db c.id wsId with
  | some cv => rw [hfc] at hec; simp at hec; rw [← hec]
  | none =>
    rw [hfc] at hec
    by_cases h2 : f.conversationCreate
    · simp [h2] at hec
    · simp [h2] at hec; rw [← hec]

/-- The bookings table after the route: unchanged unless the outcome is
`ok b`, in which case exactly `b` was appended. The booking write is the last
persistence step, so no failure path ever leaves a Booking row behind. -/
theorem bookHandler_bookings (f : Faults) (wsId : Nat) (req : BookRequest) (db : DB) :
    (bookHandler f wsId req db).1.bookings =
      match (bookHandler f wsId req db).2 with
      | .ok b => db.bookings ++ [b]
      | _ => db.bookings := by
  unfold bookHandler bookSteps createBooking
  cases hws : findWorkspace db wsId with
  | none => simp
  | some ws =>
    by_cases hact : ws.isActive = false
    · simp [hact]
    · simp only [hact, if_false]
      cases hstid : req.serviceTypeId with
      | none => simp
      | some stid =>
        cases hdt : req.dateTime with
        | none => simp
        | some dt =>
          simp only
          by_cases hname : req.name = ""
          · simp [hname]
          · simp only [hname, if_false]
            by_cases hids : (req.email.isNone && req.phone.isNone) = true
            · simp [hids]
            · simp only [hids, if_false]
              cases hst : findServiceType db stid with
              | none => simp
              | some st =>
                simp only
                cases hrc : resolveContact db wsId req.email req.phone with
                | some c =>
                  simp only
                  cases hec : ensureConversation f wsId c db with
                  | none => simp
                  | some db1 =>
                    simp only
                    have hconv : db1.bookings = db.bookings :=
                      ensureConversation_bookings f wsId c db db1 hec
                    by_cases hbf : f.bookingCreate
                    · simp [hbf, hconv]
                    · simp [hbf, hconv]
                | none =>
                  by_cases hcf : f.contactCreate
                  · simp [hcf]
                  · simp only [hcf, if_false]
                    set c : Contact := ⟨db.nextId, wsId, req.name, req.email, req.phone, "booking"⟩
                    set db0 : DB :=
                      { db with contacts := db.contacts ++ [c], nextId := db.nextId + 1 }
                    cases hec : ensureConversation f wsId c db0 with
                    | none => simp
                    | some db1 =>
                      simp only
                      have hconv0 : db1.bookings = db0.bookings :=
                        ensureConversation_bookings f wsId c db0 db1 hec
                      have hconv : db1.bookings = db.bookings := hconv0
                      by_cases hbf : f.bookingCreate
                      · simp [hbf, hconv]
                      · simp [hbf, hconv]

/-- C4 (amended): if any persistence step of the booking flow fails, no
Booking record exists afterwards — the booking write is the final step — but
the store is NOT rolled back: a Contact or Conversation created by an earlier
step remains (shown by `C4_atomicity_counterexample`). -/
theorem C4_no_booking_on_failure (f : Faults) (wsId : Nat) (req : BookRequest)
    (db : DB) (h : (bookHandler f wsId req db).2 = .persistenceError) :
    (bookHandler f wsId req db).1.bookings = db.bookings := by
  have hb := bookHandler_bookings f wsId req db
  rw [h] at hb
  simpa using hb

/-- Active workspace used by the concrete booking scenarios. -/
def wsA : Workspace := ⟨1, "Acme", true⟩

/-- 30-minute service type used by the concrete booking scenarios. -/
def stA : ServiceTypeRow := ⟨1, 1, "Haircut", 30, none⟩

/-- Store with one active workspace and one service type and no contacts. -/
def dbBase : DB := ⟨[wsA], [], [], [], [], [], [stA], [], [], [], [], [], [], 100⟩

/-- Booking request from a brand-new visitor. -/
def reqNew : BookRequest := ⟨some 1, some 0, "New", some "a@x.com", none, none⟩

/-- Fault injection: the final `prisma.booking.create` fails. -/
def faultBooking : Faults := ⟨false, false, true⟩

/-- C4 counterexample: with the booking write failing, the operation reports a
persistence error and no Booking exists, yet the store is NOT as it was
before — the freshly created Contact (and Conversation) survive, refuting
"no partial state is left behind". -/
theorem C4_atomicity_counterexample :
    (bookHandler faultBooking 1 reqNew dbBase).2 = .persistenceError ∧
    (bookHandler faultBooking 1 reqNew dbBase).1 ≠ dbBase ∧
    (bookHandler faultBooking 1 reqNew dbBase).1.contacts.length =
      dbBase.contacts.length + 1 ∧
    (bookHandler faultBooking 1 reqNew dbBase).1.bookings = dbBase.bookings := by
  decide

theorem C4_no_booking_on_failure_witness :
    (bookHandler faultBooking 1 reqNew dbBase).2 = .persistenceError ∧
    (bookHandler faultBooking 1 reqNew dbBase).1.bookings = dbBase.bookings :=
  ⟨by decide, C4_no_booking_on_failure faultBooking 1 reqNew dbBase (by decide)⟩

theorem bookSteps_noFaults_spec (wsId stid : Nat) (dt : Int) (duration : Nat)
    (notes : Option String) (c : Contact) (db : DB) :
    (bookSteps noFaults wsId stid dt duration notes c db).1.contacts = db.contacts ∧
    ∃ b, (bookSteps noFaults wsId stid dt duration notes c db).2 = .ok b ∧
      b.contactId = c.id := by
  unfold bookSteps ensureConversation createBooking noFaults
  cases hfc : findConversation db c.id wsId with
  | some cv =>
    constructor
    · simp
    · exact ⟨⟨db.nextId, wsId, c.id, stid, dt, dt + (duration : Int) * msPerMinute,
        "CONFIRMED", notes⟩, by simp, rfl⟩
  | none =>
    constructor
    · simp
    · exact ⟨⟨db.nextId + 1, wsId, c.id, stid, dt, dt + (duration : Int) * msPerMinute,
        "CONFIRMED", notes⟩, by simp, rfl⟩

/-- C3 (amended): the booking flow resolves the contact by (workspaceId,
email) first, then (workspaceId, phone); when a match is found the existing
row is reused AS IS — its stored name/email/phone are NOT updated with the
request's values — and no second Contact row is created; when no match
exists, exactly one new contact with source "booking" is appended. -/
theorem C3_resolve_or_create (wsId : Nat) (req : BookRequest) (db : DB)
    (ws : Workspace) (stid : Nat) (dt : Int) (st : ServiceTypeRow)
    (hws : findWorkspace db wsId = some ws) (hact : ws.isActive = true)
    (hstid : req.serviceTypeId = some stid) (hdt : req.dateTime = some dt)
    (hname : req.name ≠ "") (hid : req.email.isSome ∨ req.phone.isSome)
    (hst : findServiceType db stid = some st) :
    (∀ c, resolveContact db wsId req.email req.phone = some c →
      (bookHandler noFaults wsId req db).1.contacts = db.contacts ∧
      ∃ b, (bookHandler noFaults wsId req db).2 = .ok b ∧ b.contactId = c.id) ∧
    (resolveContact db wsId req.email req.phone = none →
      (bookHandler noFaults wsId req db).1.contacts =
        db.contacts ++ [⟨db.nextId, wsId, req.name, req.email, req.phone, "booking"⟩]) := by
  have hids : (req.email.isNone && req.phone.isNone) = false := by
    cases he : req.email <;> cases hp : req.phone <;> simp_all
  constructor
  · intro c hc
    unfold bookHandler
    rw [hws, hstid, hdt]
    simp only [hact, Bool.true_eq_false, if_false, hname, if_false, hids,
      Bool.false_eq_true, hst, hc]
    exact bookSteps_noFaults_spec wsId stid dt st.duration req.notes c db
  · intro hc
    unfold bookHandler
    rw [hws, hstid, hdt]
    simp only [hact, Bool.true_eq_false, if_false, hname, if_false, hids,
      Bool.false_eq_true, hst, hc]
    simp only [noFaults, Bool.false_eq_true, if_false]
    exact (bookSteps_noFaults_spec wsId stid dt st.duration req.notes _ _).1

/-- Existing contact whose stored info differs from the booking request. -/
def oldContact : Contact := ⟨10, 1, "Old", some "a@x.com", some "111", "contact_form"⟩

/-- Store containing `oldContact`. -/
def dbC3 : DB := ⟨[wsA], [], [oldContact], [], [], [], [stA], [], [], [], [], [], [], 100⟩

/-- Booking request supplying a new name and phone for the same email. -/
def reqC3 : BookRequest := ⟨some 1, some 0, "New", some "a@x.com", some "222", none⟩

/-- C3 counterexample: booking with the email of an existing contact but a new
name and phone succeeds and links the booking to the stored contact, yet the
stored row keeps name "Old" and phone "111" — the claim that booking-time
name/phone overwrite the stored values is false. -/
theorem C3_contact_update_counterexample :
    (bookHandler noFaults 1 reqC3 dbC3).2 =
      .ok ⟨101, 1, 10, 1, 0, 1800000, "CONFIRMED", none⟩ ∧
    (bookHandler noFaults 1 reqC3 dbC3).1.contacts = [oldContact] ∧
    (∀ c ∈ (bookHandler noFaults 1 reqC3 dbC3).1.contacts,
      c.name ≠ "New" ∧ c.phone ≠ some "222") := by
  decide

theorem C3_resolve_or_create_witness :
    (findWorkspace dbC3 1 = some wsA ∧ wsA.isActive = true ∧
     reqC3.serviceTypeId = some 1 ∧ reqC3.dateTime = some 0 ∧
     reqC3.name ≠ "" ∧ reqC3.email.isSome = true ∧
     findServiceType dbC3 1 = some stA ∧
     resolveContact dbC3 1 reqC3.email reqC3.phone = some oldContact) ∧
    ((bookHandler noFaults 1 reqC3 dbC3).1.contacts = dbC3.contacts ∧
     ∃ b, (bookHandler noFaults 1 reqC3 dbC3).2 = .ok b ∧ b.contactId = oldContact.id) :=
  ⟨by decide,
   (C3_resolve_or_create 1 reqC3 dbC3 wsA 1 0 stA (by decide) (by decide)
      (by decide) (by decide) (by decide) (Or.inl (by decide)) (by decide)).1
     oldContact (by decide)⟩

/-! ## Public form submission (`POST /forms/:submissionId`, src/routes/public.js) -/

/-- `prisma.formSubmission.update({ where: { id }, data: { data, status: 'COMPLETED' } })`:
overwrites the row's data and status with no precondition on the current
status; `false` when the row does not exist (Prisma `update` rejects). -/
def formSubmissionPost (submissionId : Nat) (d : String) (db : DB) : DB × Bool :=
  if db.formSubmissions.any (fun s => s.id == submissionId) then
    ({ db with
        formSubmissions := db.formSubmissions.map fun s =>
          if s.id == submissionId then { s with data := some d, status := "COMPLETED" }
          else s },
      true)
  else (db, false)

/-- C10: for every existing FormSubmission — whatever its current status,
including OVERDUE or COMPLETED — the public form-submission endpoint replaces
its data and sets its status to COMPLETED; no precondition is checked. -/
theorem C10_form_submit_unconditional (submissionId : Nat) (d : String) (db : DB)
    (s : FormSubmissionRow) (hs : s ∈ db.formSubmissions) (hid : s.id = submissionId) :
    ({ s with data := some d, status := "COMPLETED" } : FormSubmissionRow) ∈
      (formSubmissionPost submissionId d db).1.formSubmissions ∧
    (formSubmissionPost submissionId d db).2 = true := by
  have hany : db.formSubmissions.any (fun s => s.id == submissionId) = true :=
    List.any_eq_true.mpr ⟨s, hs, by simp [hid]⟩
  unfold formSubmissionPost
  simp only [hany, if_true]
  constructor
  · exact List.mem_map.mpr ⟨s, hs, by simp [hid]⟩
  · trivial

/-- An OVERDUE submission, a state the spec elsewhere calls terminal. -/
def overdueSub : FormSubmissionRow := ⟨50, 5, none, 10, "OVERDUE", some 0, none⟩

/-- Store containing only `overdueSub`. -/
def dbC10 : DB := ⟨[], [], [], [], [], [], [], [], [overdueSub], [], [], [], [], 60⟩

theorem C10_form_submit_unconditional_witness :
    (overdueSub ∈ dbC10.formSubmissions ∧ overdueSub.id = 50) ∧
    (({ overdueSub with data := some "d2", status := "COMPLETED" } : FormSubmissionRow) ∈
        (formSubmissionPost 50 "d2" dbC10).1.formSubmissions ∧
      (formSubmissionPost 50 "d2" dbC10).2 = true) :=
  ⟨⟨by decide, by decide⟩,
   C10_form_submit_unconditional 50 "d2" dbC10 overdueSub (by decide) (by decide)⟩

/-! ## Webhook fan-out (`src/services/webhook.js`)

`fire` collects the workspace's active WEBHOOK integrations and runs `send`
for each under `Promise.allSettled`, so receivers are independent failure
domains. Each receiver's HTTP outcome is supplied by an oracle
`wout : Integration → SendOutcome`. `send` returns early — no HTTP request,
no log — when the integration's config has no `url`. -/

inductive SendOutcome where
  | response (ok : Bool) (statusCode : Nat)
  | netError (msg : String)
  deriving Repr, DecidableEq

/-- External side effects of the automation layer (DB writes live in `DB`). -/
inductive Effect where
  | emailSend (toAddr subject text : String)
  | waSend (toAddr body : String)
  | httpPost (integrationId : Nat) (url : String) (event : String)
  | calendarSync (bookingId : Nat)
  deriving Repr, DecidableEq

/-- The `details` string of a webhook AutomationLog entry. -/
def webhookLogDetails (whId : Nat) (url : String) (out : SendOutcome) : String :=
  match out with
  | .response _ statusCode =>
    "Webhook " ++ toString whId ++ " → " ++ url ++ " (" ++ toString statusCode ++ ")"
  | .netError msg => "Webhook " ++ toString whId ++ " → " ++ url ++ ": " ++ msg

/-- HTTP requests issued by one `send` call: one POST when a URL is
configured, none otherwise. -/
def webhookSendPosts (event : String) (wh : Integration) : List Effect :=
  match wh.url with
  | none => []
  | some u => [.httpPost wh.id u event]

/-- AutomationLog entries written by one `send` call: `success` iff
`response.ok`, `failed` on a non-ok status or a network error/timeout;
nothing when no URL is configured. -/
def webhookSendLogs (wout : Integration → SendOutcome) (wsId : Nat) (now : Int)
    (event : String) (wh : Integration) : List LogRow :=
  match wh.url with
  | none => []
  | some u =>
    match wout wh with
    | .response ok statusCode =>
      [⟨wsId, "webhook." ++ event, none, none, if ok then "success" else "failed",
        some (webhookLogDetails wh.id u (.response ok statusCode)), now⟩]
    | .netError msg =>
      [⟨wsId, "webhook." ++ event, none, none, "failed",
        some (webhookLogDetails wh.id u (.netError msg)), now⟩]

/-- `prisma.integration.findMany({ where: { workspaceId, type: 'WEBHOOK', isActive: true } })`. -/
def activeWebhooks (ints : List Integration) (wsId : Nat) : List Integration :=
  ints.filter fun i => i.workspaceId == wsId && i.itype == "WEBHOOK" && i.isActive

/-- `WebhookService.fire`: every active WEBHOOK integration is processed;
`Promise.allSettled` means a rejected `send` is only console-logged and never
cancels the others. -/
def webhookFire (wout : Integration → SendOutcome) (ints : List Integration)
    (wsId : Nat) (event : String) (now : Int) : List Effect × List LogRow :=
  ((activeWebhooks ints wsId).flatMap (webhookSendPosts event),
   (activeWebhooks ints wsId).flatMap (webhookSendLogs wout wsId now event))

theorem httpPost_mem_fire (wout : Integration → SendOutcome) (ints : List Integration)
    (wsId : Nat) (event : String) (now : Int) (wh : Integration)
    (hmem : wh ∈ activeWebhooks ints wsId) (u : String) (hurl : wh.url = some u) :
    Effect.httpPost wh.id u event ∈ (webhookFire wout ints wsId event now).1 := by
  unfold webhookFire
  simp only
  rw [List.mem_flatMap]
  exact ⟨wh, hmem, by simp [webhookSendPosts, hurl]⟩

/-- C9 (amended): delivery is attempted to every active WEBHOOK integration
that has a configured URL (one without a URL is skipped with no request and
no log — see `C9_webhook_counterexample`); the set of requests does not
depend on any receiver's outcome; each URL-configured receiver contributes
exactly one AutomationLog entry, `success` iff its own HTTP response was ok
and `failed` with the error detail otherwise, and that entry depends only on
that receiver's own outcome. -/
theorem C9_webhook_isolation (wout wout' : Integration → SendOutcome)
    (ints : List Integration) (wsId : Nat) (event : String) (now : Int)
    (wh : Integration) (hmem : wh ∈ activeWebhooks ints wsId)
    (u : String) (hurl : wh.url = some u) :
    Effect.httpPost wh.id u event ∈ (webhookFire wout ints wsId event now).1 ∧
    (webhookFire wout ints wsId event now).1 = (webhookFire wout' ints wsId event now).1 ∧
    webhookSendLogs wout wsId now event wh =
      [⟨wsId, "webhook." ++ event, none, none,
        (match wout wh with
         | .response ok _ => if ok then "success" else "failed"
         | .netError _ => "failed"),
        some (webhookLogDetails wh.id u (wout wh)), now⟩] ∧
    (wout wh = wout' wh →
      webhookSendLogs wout wsId now event wh = webhookSendLogs wout' wsId now event wh) := by
  refine ⟨httpPost_mem_fire wout ints wsId event now wh hmem u hurl, rfl, ?_, ?_⟩
  · unfold webhookSendLogs
    rw [hurl]
    cases hout : wout wh with
    | response ok statusCode => cases ok <;> simp
    | netError msg => simp
  · intro hagree
    unfold webhookSendLogs
    rw [hagree]

/-- An active WEBHOOK integration whose config blob has no `url` (the
integrations route accepts `config: {}`). -/
def noUrlWebhook : Integration := ⟨1, 1, "WEBHOOK", true, none, none⟩

/-- C9 counterexample: with one active WEBHOOK integration lacking a URL,
`fire` makes no delivery attempt to it and writes no AutomationLog entry,
refuting "delivery is attempted to every active WEBHOOK-type integration,
each attempt is logged". -/
theorem C9_webhook_counterexample :
    activeWebhooks [noUrlWebhook] 1 = [noUrlWebhook] ∧
    (webhookFire (fun _ => .response true 200) [noUrlWebhook] 1 "contact.created" 0).1 = [] ∧
    (webhookFire (fun _ => .response true 200) [noUrlWebhook] 1 "contact.created" 0).2 = [] := by
  refine ⟨by decide, ?_, ?_⟩ <;> rfl

theorem C9_webhook_isolation_witness :
    (noUrlWebhook ∈ activeWebhooks [⟨2, 1, "WEBHOOK", true, some "https://a.example", none⟩] 1 ∨
      (⟨2, 1, "WEBHOOK", true, some "https://a.example", none⟩ : Integration) ∈
        activeWebhooks [⟨2, 1, "WEBHOOK", true, some "https://a.example", none⟩] 1) ∧
    Effect.httpPost 2 "https://a.example" "booking.created" ∈
      (webhookFire (fun _ => .netError "timeout")
        [⟨2, 1, "WEBHOOK", true, some "https://a.example", none⟩] 1 "booking.created" 5).1 :=
  ⟨Or.inr (by decide),
   (C9_webhook_isolation (fun _ => .netError "timeout") (fun _ => .response true 200)
      [⟨2, 1, "WEBHOOK", true, some "https://a.example", none⟩] 1 "booking.created" 5
      ⟨2, 1, "WEBHOOK", true, some "https://a.example", none⟩ (by decide)
      "https://a.example" (by decide)).1⟩

/-! ## Automation handlers (`src/services/automation.js`)

External gateway calls become `Effect`s; table writes go through `DB`.
`process.env.FRONTEND_URL` and locale-dependent date rendering are abstracted
by `frontendUrl` and `toLocaleString` (their exact text never matters to the
claims). The `html` email bodies parallel the `text` bodies and are omitted
from the trace. -/

def frontendUrl : String := "FRONTEND_URL"

/-- `new Date(x).toLocaleString()` (locale formatting abstracted). -/
def toLocaleString (t : Int) : String := toString t

/-- `notifyTeam` recipient list over the users table: the OWNER (if any)
then all STAFF. -/
def teamRecipients (users : List UserRow) (wsId : Nat) : List UserRow :=
  (match users.find? (fun u => u.workspaceId == wsId && u.role == "OWNER") with
   | some o => [o]
   | none => []) ++
    users.filter fun u => u.workspaceId == wsId && u.role == "STAFF"

/-- `AutomationService.notifyTeam`: one email per recipient with an address
(its only DB footprint is the users table). -/
def notifyTeam (users : List UserRow) (wsId : Nat) (subject text : String) : List Effect :=
  (teamRecipients users wsId).filterMap fun m =>
    m.email.map fun e => Effect.emailSend e subject text

/-- `AutomationService.log`. -/
def appendLog (db : DB) (wsId : Nat) (event act : String) (contactId : Option Nat)
    (status : String) (details : Option String) (now : Int) : DB :=
  { db with automationLogs := db.automationLogs ++
      [⟨wsId, event, some act, contactId, status, details, now⟩] }

def welcomeMessage (wsName contactName : String) : String :=
  "Hi " ++ contactName ++ "! Thank you for reaching out to " ++ wsName ++
    ". We'll get back to you shortly."

def newContactText (contact : Contact) : String :=
  "You have a new contact!\n\nName: " ++ contact.name ++
    "\nEmail: " ++ contact.email.getD "Not provided" ++
    "\nPhone: " ++ contact.phone.getD "Not provided" ++
    "\nSource: Contact Form\n\nView in inbox: " ++ frontendUrl ++ "/inbox"

def contactAlertMessage (contact : Contact) : String :=
  "New message from " ++ contact.name ++
    (match contact.email with | some e => " (" ++ e ++ ")" | none => "")

/-- `AutomationService.onContactCreated`. The welcome message (conversation
append, welcome email, welcome WhatsApp) happens only when the conversation
exists and `automationPaused` is false; team notification, alert, log and
webhook fan-out are unconditional (for an active workspace). -/
def onContactCreated (wout : Integration → SendOutcome) (now : Int)
    (wsId : Nat) (contact : Contact) (db : DB) : DB × List Effect :=
  match findWorkspace db wsId with
  | none => (db, [])
  | some ws =>
    if ws.isActive = false then (db, [])
    else
      let welcomeMsg := welcomeMessage ws.name contact.name
      let db1 : DB :=
        match findConversation db contact.id wsId with
        | some cv =>
          if cv.automationPaused = false then
            { db with messages := db.messages ++ [⟨cv.id, "OUTBOUND", "SYSTEM", welcomeMsg⟩] }
          else db
        | none => db
      let welcomeEffs :=
        match findConversation db contact.id wsId with
        | some cv =>
          if cv.automationPaused = false then
            (match contact.email with
             | some e => [Effect.emailSend e ("Welcome to " ++ ws.name ++ "!") welcomeMsg]
             | none => []) ++
              (match contact.phone with
               | some p => [Effect.waSend p welcomeMsg]
               | none => [])
          else []
        | none => []
      let teamEffs :=
        notifyTeam db1.users wsId ("📩 New Contact: " ++ contact.name) (newContactText contact)
      let db2 := { db1 with alerts := db1.alerts ++
        [⟨wsId, "MISSED_MESSAGE", contactAlertMessage contact, "/inbox"⟩] }
      let db3 := appendLog db2 wsId "contact.created" "send_welcome" (some contact.id)
        "success" none now
      let fw := webhookFire wout db3.integrations wsId "contact.created" now
      let db4 := { db3 with automationLogs := db3.automationLogs ++ fw.2 }
      (db4, welcomeEffs ++ teamEffs ++ fw.1)

def confirmMessage (stName wsName : String) (dt : Int) (location : Option String) : String :=
  "Your " ++ stName ++ " appointment at " ++ wsName ++ " is confirmed for " ++
    toLocaleString dt ++ ". " ++
    (match location with | some l => "Location: " ++ l | none => "")

def newBookingText (contact : Contact) (st : ServiceTypeRow) (booking : BookingRow) : String :=
  "New booking received!\n\nClient: " ++ contact.name ++
    "\nEmail: " ++ contact.email.getD "N/A" ++
    "\nPhone: " ++ contact.phone.getD "N/A" ++
    "\nService: " ++ st.name ++
    "\nDate: " ++ toLocaleString booking.dateTime ++
    "\nEnd: " ++ toLocaleString booking.endTime ++
    "\n" ++ (match st.location with | some l => "Location: " ++ l | none => "") ++
    "\n\nView bookings: " ++ frontendUrl ++ "/bookings"

def formRequestText (wsId : Nat) (t : FormTemplateRow) : String :=
  "Please complete the form \"" ++ t.name ++ "\" before your appointment. Link: " ++
    frontendUrl ++ "/public/" ++ toString wsId ++ "/form/" ++ toString t.id

/-- One iteration of the `// Auto-send linked forms` loop: create a PENDING
FormSubmission due at the booking's start, then email the completion link if
the contact has an email. -/
def formStep (wsId : Nat) (booking : BookingRow) (contact : Contact)
    (acc : DB × List Effect) (t : FormTemplateRow) : DB × List Effect :=
  let sub : FormSubmissionRow :=
    ⟨acc.1.nextId, t.id, some booking.id, contact.id, "PENDING", some booking.dateTime, none⟩
  ({ acc.1 with formSubmissions := acc.1.formSubmissions ++ [sub], nextId := acc.1.nextId + 1 },
   acc.2 ++
     (match contact.email with
      | some e => [Effect.emailSend e ("Please complete: " ++ t.name) (formRequestText wsId t)]
      | none => []))

def linkedFormsFold (wsId : Nat) (booking : BookingRow) (contact : Contact)
    (templates : List FormTemplateRow) (db : DB) : DB × List Effect :=
  templates.foldl (formStep wsId booking contact) (db, [])

/-- `AutomationService.onBookingCreated`. The confirmation append/delivery is
NOT gated on `automationPaused`; when the service type row is missing the
`serviceType.name` dereference throws and the catch logs a failed attempt. -/
def onBookingCreated (wout : Integration → SendOutcome) (now : Int)
    (wsId : Nat) (booking : BookingRow) (contact : Contact) (db : DB) : DB × List Effect :=
  match findWorkspace db wsId with
  | none => (db, [])
  | some ws =>
    if ws.isActive = false then (db, [])
    else
      match findServiceType db booking.serviceTypeId with
      | none =>
        (appendLog db wsId "booking.created" "send_confirmation" (some contact.id)
          "failed" (some "TypeError") now, [])
      | some st =>
        let confirmMsg := confirmMessage st.name ws.name booking.dateTime st.location
        let db1 : DB :=
          match findConversation db contact.id wsId with
          | some cv =>
            { db with messages := db.messages ++ [⟨cv.id, "OUTBOUND", "SYSTEM", confirmMsg⟩] }
          | none => db
        let contactEffs :=
          (match contact.email with
           | some e => [Effect.emailSend e ("Booking Confirmed - " ++ st.name) confirmMsg]
           | none => []) ++
            (match contact.phone with
             | some p => [Effect.waSend p confirmMsg]
             | none => [])
        let teamEffs :=
          notifyTeam db1.users wsId ("📅 New Booking: " ++ contact.name ++ " - " ++ st.name)
            (newBookingText contact st booking)
        let templates := db1.formTemplates.filter fun t =>
          t.workspaceId == wsId && t.linkedServiceTypeId == some booking.serviceTypeId
        let df := linkedFormsFold wsId booking contact templates db1
        let bookingAlert : AlertRow :=
          ⟨wsId, "UNCONFIRMED_BOOKING",
            "New booking: " ++ contact.name ++ " booked " ++ st.name ++ " for " ++
              toLocaleString booking.dateTime, "/bookings"⟩
        let db3 := { df.1 with alerts := df.1.alerts ++ [bookingAlert] }
        let fw := webhookFire wout db3.integrations wsId "booking.created" now
        let db4 := { db3 with automationLogs := db3.automationLogs ++ fw.2 }
        let db5 := appendLog db4 wsId "booking.created" "send_confirmation" (some contact.id)
          "success" none now
        (db5, contactEffs ++ teamEffs ++ df.2 ++ [Effect.calendarSync booking.id] ++ fw.1)

/-- Flip one conversation's `automationPaused` flag (what `staff.replied`
does when `b = true`). -/
def setConvPaused (db : DB) (cid : Nat) (b : Bool) : DB :=
  { db with conversations := db.conversations.map fun cv =>
      if cv.id == cid then { cv with automationPaused := b } else cv }

theorem notifyTeam_shape (users : List UserRow) (wsId : Nat) (subject text : String)
    (e : Effect) (he : e ∈ notifyTeam users wsId subject text) :
    ∃ a, e = .emailSend a subject text := by
  unfold notifyTeam at he
  rw [List.mem_filterMap] at he
  obtain ⟨m, _, hm⟩ := he
  cases hme : m.email with
  | none => rw [hme] at hm; exact absurd hm (by simp)
  | some a =>
    rw [hme] at hm
    simp only [Option.map_some', Option.some.injEq] at hm
    exact ⟨a, hm.symm⟩

theorem firePosts_shape (wout : Integration → SendOutcome) (ints : List Integration)
    (wsId : Nat) (event : String) (now : Int) (e : Effect)
    (he : e ∈ (webhookFire wout ints wsId event now).1) :
    ∃ i u, e = .httpPost i u event := by
  unfold webhookFire at he
  simp only at he
  rw [List.mem_flatMap] at he
  obtain ⟨wh, _, hm⟩ := he
  unfold webhookSendPosts at hm
  cases hu : wh.url with
  | none => rw [hu] at hm; simp at hm
  | some u =>
    rw [hu] at hm
    simp only [List.mem_singleton] at hm
    exact ⟨wh.id, u, hm⟩

/-- C7: for an active workspace and a conversation with `automationPaused`,
`contact.created` appends no welcome message and delivers no welcome
email/WhatsApp to the contact, while the team notification emails, the
in-app Alert, the AutomationLog entry and the webhook fan-out still occur
(every emitted effect is a team email or a webhook POST). -/
theorem C7_contact_created_respects_pause (wout : Integration → SendOutcome) (now : Int)
    (wsId : Nat) (contact : Contact) (db : DB) (ws : Workspace) (cv : Conversation)
    (hws : findWorkspace db wsId = some ws) (hact : ws.isActive = true)
    (hconv : findConversation db contact.id wsId = some cv)
    (hp : cv.automationPaused = true) :
    (onContactCreated wout now wsId contact db).1.messages = db.messages ∧
    (onContactCreated wout now wsId contact db).2 =
      notifyTeam db.users wsId ("📩 New Contact: " ++ contact.name) (newContactText contact) ++
        (webhookFire wout db.integrations wsId "contact.created" now).1 ∧
    (onContactCreated wout now wsId contact db).1.alerts =
      db.alerts ++ [⟨wsId, "MISSED_MESSAGE", contactAlertMessage contact, "/inbox"⟩] ∧
    (⟨wsId, "contact.created", some "send_welcome", some contact.id,
        "success", none, now⟩ : LogRow) ∈
      (onContactCreated wout now wsId contact db).1.automationLogs ∧
    (∀ wh ∈ activeWebhooks db.integrations wsId, ∀ u, wh.url = some u →
      Effect.httpPost wh.id u "contact.created" ∈ (onContactCreated wout now wsId contact db).2) ∧
    (∀ p body, Effect.waSend p body ∉ (onContactCreated wout now wsId contact db).2) := by
  have hres : onContactCreated wout now wsId contact db =
      ({ db with
          alerts := db.alerts ++ [⟨wsId, "MISSED_MESSAGE", contactAlertMessage contact, "/inbox"⟩]
          automationLogs := (db.automationLogs ++
              [⟨wsId, "contact.created", some "send_welcome", some contact.id,
                "success", none, now⟩]) ++
            (webhookFire wout db.integrations wsId "contact.created" now).2 },
       notifyTeam db.users wsId ("📩 New Contact: " ++ contact.name) (newContactText contact) ++
         (webhookFire wout db.integrations wsId "contact.created" now).1) := by
    unfold onContactCreated appendLog
    rw [hws, hconv]
    simp [hact, hp]
  refine ⟨?_, ?_, ?_, ?_, ?_, ?_⟩
  · rw [hres]
  · rw [hres]
  · rw [hres]
  · rw [hres]
    simp
  · intro wh hmem u hurl
    rw [hres]
    exact List.mem_append_right _ (httpPost_mem_fire wout db.integrations wsId
      "contact.created" now wh hmem u hurl)
  · intro p body hmem
    rw [hres] at hmem
    rcases List.mem_append.mp hmem with h | h
    · obtain ⟨a, ha⟩ := notifyTeam_shape _ _ _ _ _ h
      exact Effect.noConfusion ha
    · obtain ⟨i, u, hu⟩ := firePosts_shape _ _ _ _ _ _ h
      exact Effect.noConfusion hu

/-- Contact for the automation scenarios. -/
def annContact : Contact := ⟨10, 1, "Ann", some "ann@x.com", some "99", "contact_form"⟩

/-- Ann's conversation, paused by a staff reply. -/
def convPaused : Conversation := ⟨20, 1, 10, "open", true⟩

/-- Workspace owner with an email address. -/
def ownerUser : UserRow := ⟨30, 1, "OWNER", some "own@x.com"⟩

/-- Active WEBHOOK integration with a configured URL. -/
def urlWebhook : Integration := ⟨2, 1, "WEBHOOK", true, some "https://hook.example", none⟩

/-- Store for the automation-handler scenarios. -/
def dbAuto : DB :=
  ⟨[wsA], [ownerUser], [annContact], [convPaused], [], [], [stA], [], [], [], [],
    [urlWebhook], [], 200⟩

theorem C7_contact_created_respects_pause_witness :
    (findWorkspace dbAuto 1 = some wsA ∧ wsA.isActive = true ∧
     findConversation dbAuto 10 1 = some convPaused ∧
     convPaused.automationPaused = true) ∧
    (onContactCreated (fun _ => .response true 200) 0 1 annContact dbAuto).1.messages =
      dbAuto.messages :=
  ⟨⟨by decide, by decide, by decide, by decide⟩,
   (C7_contact_created_respects_pause (fun _ => .response true 200) 0 1 annContact dbAuto
      wsA convPaused (by decide) (by decide) (by decide) (by decide)).1⟩

/-- Emails produced by one linked-form iteration. -/
def formEffects (wsId : Nat) (contact : Contact) (t : FormTemplateRow) : List Effect :=
  match contact.email with
  | some e => [Effect.emailSend e ("Please complete: " ++ t.name) (formRequestText wsId t)]
  | none => []

theorem formsFold_effects (wsId : Nat) (booking : BookingRow) (contact : Contact) :
    ∀ (ts : List FormTemplateRow) (acc : DB × List Effect),
      (ts.foldl (formStep wsId booking contact) acc).2 =
        acc.2 ++ ts.flatMap (formEffects wsId contact)
  | [], acc => by simp
  | t :: ts, acc => by
    rw [List.foldl_cons, formsFold_effects wsId booking contact ts]
    unfold formStep formEffects
    simp [List.append_assoc]

theorem formsFold_messages (wsId : Nat) (booking : BookingRow) (contact : Contact) :
    ∀ (ts : List FormTemplateRow) (acc : DB × List Effect),
      (ts.foldl (formStep wsId booking contact) acc).1.messages = acc.1.messages
  | [], acc => rfl
  | t :: ts, acc => by
    rw [List.foldl_cons, formsFold_messages wsId booking contact ts]
    rfl

theorem formsFold_integrations (wsId : Nat) (booking : BookingRow) (contact : Contact) :
    ∀ (ts : List FormTemplateRow) (acc : DB × List Effect),
      (ts.foldl (formStep wsId booking contact) acc).1.integrations = acc.1.integrations
  | [], acc => rfl
  | t :: ts, acc => by
    rw [List.foldl_cons, formsFold_integrations wsId booking contact ts]
    rfl

/-- Full characterization of a successful `booking.created` run: the
confirmation append and deliveries, team emails, linked-form emails, the
calendar sync and the webhook posts — with no reference to
`automationPaused`, which the handler never reads. -/
theorem onBookingCreated_run (wout : Integration → SendOutcome) (now : Int)
    (wsId : Nat) (booking : BookingRow) (contact : Contact) (db : DB)
    (ws : Workspace) (st : ServiceTypeRow) (cv : Conversation)
    (hws : findWorkspace db wsId = some ws) (hact : ws.isActive = true)
    (hst : findServiceType db booking.serviceTypeId = some st)
    (hconv : findConversation db contact.id wsId = some cv) :
    (onBookingCreated wout now wsId booking contact db).1.messages =
      db.messages ++ [⟨cv.id, "OUTBOUND", "SYSTEM",
        confirmMessage st.name ws.name booking.dateTime st.location⟩] ∧
    (onBookingCreated wout now wsId booking contact db).2 =
      (match contact.email with
       | some e => [Effect.emailSend e ("Booking Confirmed - " ++ st.name)
           (confirmMessage st.name ws.name booking.dateTime st.location)]
       | none => []) ++
        (match contact.phone with
         | some p => [Effect.waSend p (confirmMessage st.name ws.name booking.dateTime st.location)]
         | none => []) ++
        notifyTeam db.users wsId ("📅 New Booking: " ++ contact.name ++ " - " ++ st.name)
          (newBookingText contact st booking) ++
        (db.formTemplates.filter fun t =>
            t.workspaceId == wsId && t.linkedServiceTypeId == some booking.serviceTypeId).flatMap
          (formEffects wsId contact) ++
        [Effect.calendarSync booking.id] ++
        (webhookFire wout db.integrations wsId "booking.created" now).1 := by
  unfold onBookingCreated linkedFormsFold
  rw [hws, hst, hconv]
  simp only [hact, Bool.true_eq_false, if_false]
  constructor
  · simp [appendLog, formsFold_messages]
  · simp [appendLog, formsFold_effects, formsFold_integrations, List.append_assoc]

theorem findConversation_setConvPaused (db : DB) (cid : Nat) (b : Bool)
    (contactId wsId : Nat) :
    findConversation (setConvPaused db cid b) contactId wsId =
      (findConversation db contactId wsId).map
        (fun cv => if cv.id == cid then { cv with automationPaused := b } else cv) := by
  unfold findConversation setConvPaused
  rw [List.find?_map]
  have hp : ((fun cv : Conversation => cv.contactId == contactId && cv.workspaceId == wsId) ∘
      (fun cv => if cv.id == cid then { cv with automationPaused := b } else cv)) =
      (fun cv : Conversation => cv.contactId == contactId && cv.workspaceId == wsId) := by
    funext cv
    by_cases h : cv.id = cid <;> simp [h]
  rw [hp]

/-- C8: `booking.created` appends the confirmation message and delivers the
confirmation email/WhatsApp regardless of `automationPaused`: flipping the
flag on any conversation changes neither the emitted effects nor the
messages table, and with a conversation present the confirmation is appended
and delivered per the contact's identifiers. -/
theorem C8_confirmation_ignores_pause (wout : Integration → SendOutcome) (now : Int)
    (wsId : Nat) (booking : BookingRow) (contact : Contact) (db : DB)
    (ws : Workspace) (st : ServiceTypeRow) (cv : Conversation)
    (hws : findWorkspace db wsId = some ws) (hact : ws.isActive = true)
    (hst : findServiceType db booking.serviceTypeId = some st)
    (hconv : findConversation db contact.id wsId = some cv) :
    (∀ b : Bool,
      (onBookingCreated wout now wsId booking contact (setConvPaused db cv.id b)).2 =
        (onBookingCreated wout now wsId booking contact db).2 ∧
      (onBookingCreated wout now wsId booking contact (setConvPaused db cv.id b)).1.messages =
        (onBookingCreated wout now wsId booking contact db).1.messages) ∧
    (onBookingCreated wout now wsId booking contact db).1.messages =
      db.messages ++ [⟨cv.id, "OUTBOUND", "SYSTEM",
        confirmMessage st.name ws.name booking.dateTime st.location⟩] ∧
    (∀ e, contact.email = some e →
      Effect.emailSend e ("Booking Confirmed - " ++ st.name)
          (confirmMessage st.name ws.name booking.dateTime st.location) ∈
        (onBookingCreated wout now wsId booking contact db).2) ∧
    (∀ p, contact.phone = some p →
      Effect.waSend p (confirmMessage st.name ws.name booking.dateTime st.location) ∈
        (onBookingCreated wout now wsId booking contact db).2) := by
  obtain ⟨hmsg, heff⟩ :=
    onBookingCreated_run wout now wsId booking contact db ws st cv hws hact hst hconv
  refine ⟨?_, hmsg, ?_, ?_⟩
  · intro b
    have hws' : findWorkspace (setConvPaused db cv.id b) wsId = some ws := hws
    have hst' : findServiceType (setConvPaused db cv.id b) booking.serviceTypeId = some st := hst
    have hconv' : findConversation (setConvPaused db cv.id b) contact.id wsId =
        some (if cv.id == cv.id then { cv with automationPaused := b } else cv) := by
      rw [findConversation_setConvPaused, hconv]
      rfl
    rw [if_pos (by simp)] at hconv'
    obtain ⟨hmsg', heff'⟩ :=
      onBookingCreated_run wout now wsId booking contact (setConvPaused db cv.id b) ws st
        ({ cv with automationPaused := b }) hws' hact hst' hconv'
    constructor
    · rw [heff', heff]
      rfl
    · rw [hmsg', hmsg]
      rfl
  · intro e he
    rw [heff, he]
    simp
  · intro p hp
    rw [heff, hp]
    cases contact.email <;> simp

/-- Confirmed booking of Ann for the 30-minute service. -/
def bookingB : BookingRow := ⟨40, 1, 10, 1, 0, 1800000, "CONFIRMED", none⟩

theorem C8_confirmation_ignores_pause_witness :
    (findWorkspace dbAuto 1 = some wsA ∧ wsA.isActive = true ∧
     findServiceType dbAuto bookingB.serviceTypeId = some stA ∧
     findConversation dbAuto 10 1 = some convPaused) ∧
    (onBookingCreated (fun _ => .response true 200) 0 1 bookingB annContact dbAuto).1.messages =
      dbAuto.messages ++ [⟨convPaused.id, "OUTBOUND", "SYSTEM",
        confirmMessage stA.name wsA.name bookingB.dateTime stA.location⟩] :=
  ⟨⟨by decide, by decide, by decide, by decide⟩,
   (C8_confirmation_ignores_pause (fun _ => .response true 200) 0 1 bookingB annContact dbAuto
      wsA stA convPaused (by decide) (by decide) (by decide) (by decide)).2.1⟩

/-! ## Overdue-form sweep (`cron '0 */6 * * *'`, src/services/scheduler.js)

The sweep selects `status: 'PENDING', dueDate: { lt: now }` (with the
contact and form template joined by `include`), then per row sets status
OVERDUE, emails the contact the completion link and creates an alert. The
trace is the list of transitioned submission ids — the email and alert
accompany exactly those transitions. -/

def findFormTemplate (db : DB) (id : Nat) : Option FormTemplateRow :=
  db.formTemplates.find? fun t => t.id == id

structure OverdueJoin where
  s : FormSubmissionRow
  c : Contact
  t : FormTemplateRow
  deriving Repr, DecidableEq

/-- The `findMany` filter: PENDING and `dueDate < now` (a null dueDate never
satisfies `lt`). -/
def overduePending (db : DB) (now : Int) : List FormSubmissionRow :=
  db.formSubmissions.filter fun s =>
    s.status == "PENDING" &&
      (match s.dueDate with | some d => decide (d < now) | none => false)

/-- Selected rows with their `include`d contact and form template (a row
whose relations are dangling cannot exist in a relational store). -/
def overdueSelected (db : DB) (now : Int) : List OverdueJoin :=
  (overduePending db now).filterMap fun s =>
    (findContactById db s.contactId).bind fun c =>
      (findFormTemplate db s.formTemplateId).map fun t => (⟨s, c, t⟩ : OverdueJoin)

def overdueAlertMessage (j : OverdueJoin) : String :=
  "Form \"" ++ j.t.name ++ "\" is overdue for " ++ j.c.name

/-- One loop iteration: `formSubmission.update` to OVERDUE, then email and
alert. -/
def overdueStep (acc : DB × List Nat) (j : OverdueJoin) : DB × List Nat :=
  let db1 : DB := { acc.1 with
    formSubmissions := acc.1.formSubmissions.map fun s =>
      if s.id == j.s.id then { s with status := "OVERDUE" } else s }
  let db2 : DB := { db1 with alerts := db1.alerts ++
      [⟨j.t.workspaceId, "OVERDUE_FORM", overdueAlertMessage j,
        "/forms/submissions/" ++ toString j.s.id⟩] }
  (db2, acc.2 ++ [j.s.id])

def overdueSweep (now : Int) (db : DB) : DB × List Nat :=
  (overdueSelected db now).foldl overdueStep (db, [])

theorem overdueFold_trace :
    ∀ (js : List OverdueJoin) (acc : DB × List Nat),
      (js.foldl overdueStep acc).2 = acc.2 ++ js.map (fun j => j.s.id)
  | [], acc => by simp
  | j :: js, acc => by
    rw [List.foldl_cons, overdueFold_trace js]
    unfold overdueStep
    simp [List.append_assoc]

theorem overdueStep_preserves (acc : DB × List Nat) (j : OverdueJoin) (i : Nat)
    (h : ∀ s' ∈ acc.1.formSubmissions, s'.id = i → s'.status = "OVERDUE") :
    ∀ s' ∈ (overdueStep acc j).1.formSubmissions, s'.id = i → s'.status = "OVERDUE" := by
  intro s' hs' hid
  unfold overdueStep at hs'
  simp only [List.mem_map] at hs'
  obtain ⟨s0, hs0, heq⟩ := hs'
  by_cases hcase : s0.id = j.s.id
  · rw [if_pos (by simp [hcase])] at heq
    rw [← heq]
  · rw [if_neg (by simp [hcase])] at heq
    subst heq
    exact h s0 hs0 hid

theorem overdueStep_marks (acc : DB × List Nat) (j : OverdueJoin) :
    ∀ s' ∈ (overdueStep acc j).1.formSubmissions, s'.id = j.s.id →
      s'.status = "OVERDUE" := by
  intro s' hs' hid
  unfold overdueStep at hs'
  simp only [List.mem_map] at hs'
  obtain ⟨s0, hs0, heq⟩ := hs'
  by_cases hcase : s0.id = j.s.id
  · rw [if_pos (by simp [hcase])] at heq
    rw [← heq]
  · rw [if_neg (by simp [hcase])] at heq
    subst heq
    exact absurd hid hcase

theorem overdueFold_preserves :
    ∀ (js : List OverdueJoin) (acc : DB × List Nat) (i : Nat),
      (∀ s' ∈ acc.1.formSubmissions, s'.id = i → s'.status = "OVERDUE") →
      ∀ s' ∈ (js.foldl overdueStep acc).1.formSubmissions, s'.id = i →
        s'.status = "OVERDUE"
  | [], acc, i, h => h
  | j :: js, acc, i, h => by
    rw [List.foldl_cons]
    exact overdueFold_preserves js (overdueStep acc j) i (overdueStep_preserves acc j i h)

theorem overdueFold_marks :
    ∀ (js : List OverdueJoin) (acc : DB × List Nat) (i : Nat),
      i ∈ js.map (fun j => j.s.id) →
      ∀ s' ∈ (js.foldl overdueStep acc).1.formSubmissions, s'.id = i →
        s'.status = "OVERDUE"
  | [], acc, i, h => by simp at h
  | j :: js, acc, i, h => by
    rw [List.foldl_cons]
    rcases List.mem_cons.mp h with h1 | h1
    · subst h1
      exact overdueFold_preserves js (overdueStep acc j) j.s.id
        (overdueStep_marks acc j)
    · exact overdueFold_marks js (overdueStep acc j) i h1

theorem overdueSelected_spec (db : DB) (now : Int) (j : OverdueJoin)
    (hj : j ∈ overdueSelected db now) : j.s ∈ overduePending db now := by
  unfold overdueSelected at hj
  rw [List.mem_filterMap] at hj
  obtain ⟨s, hs, hf⟩ := hj
  cases hc : findContactById db s.contactId with
  | none => rw [hc] at hf; exact absurd hf (by simp)
  | some c =>
    rw [hc] at hf
    cases ht : findFormTemplate db s.formTemplateId with
    | none => rw [ht] at hf; exact absurd hf (by simp)
    | some t =>
      rw [ht] at hf
      simp only [Option.some_bind, Option.map_some', Option.some.injEq] at hf
      rw [← hf]
      exact hs

theorem filterMap_map_sublist {α β γ : Type} (f : α → Option β) (g : β → γ) (h : α → γ)
    (hfg : ∀ a b, f a = some b → g b = h a) :
    ∀ l : List α, ((l.filterMap f).map g).Sublist (l.map h)
  | [] => List.Sublist.refl _
  | a :: l => by
    rw [List.filterMap_cons]
    cases hfa : f a with
    | none =>
      simp only [List.map_cons]
      exact (filterMap_map_sublist f g h hfg l).cons _
    | some b =>
      simp only [List.map_cons, hfa]
      rw [hfg a b hfa]
      exact (filterMap_map_sublist f g h hfg l).cons₂ _

/-- C6: every PENDING FormSubmission whose dueDate has passed is transitioned
by the first sweep that sees it, exactly once (distinct ids in the trace);
transitioned rows are OVERDUE afterwards, and a later run — selecting only
PENDING rows — never transitions or re-notifies the same submission. -/
theorem C6_overdue_exactly_once (db : DB) (now now' : Int)
    (hnd : (db.formSubmissions.map (fun s => s.id)).Nodup)
    (hjoin : ∀ s ∈ db.formSubmissions, (findContactById db s.contactId).isSome ∧
      (findFormTemplate db s.formTemplateId).isSome) :
    (∀ s ∈ db.formSubmissions, s.status = "PENDING" →
      ∀ d, s.dueDate = some d → d < now → s.id ∈ (overdueSweep now db).2) ∧
    (overdueSweep now db).2.Nodup ∧
    (∀ s' ∈ (overdueSweep now db).1.formSubmissions,
      s'.id ∈ (overdueSweep now db).2 → s'.status = "OVERDUE") ∧
    (∀ i ∈ (overdueSweep now db).2,
      i ∉ (overdueSweep now' (overdueSweep now db).1).2) := by
  have htrace : (overdueSweep now db).2 =
      (overdueSelected db now).map (fun j => j.s.id) := by
    unfold overdueSweep
    rw [overdueFold_trace]
    simp
  have hmarks : ∀ i ∈ (overdueSweep now db).2,
      ∀ s' ∈ (overdueSweep now db).1.formSubmissions, s'.id = i →
        s'.status = "OVERDUE" := by
    intro i hi
    rw [htrace] at hi
    exact overdueFold_marks (overdueSelected db now) (db, []) i hi
  refine ⟨?_, ?_, ?_, ?_⟩
  · intro s hs hst d hd hlt
    rw [htrace]
    have hpend : s ∈ overduePending db now := by
      unfold overduePending
      rw [List.mem_filter]
      refine ⟨hs, ?_⟩
      rw [hd]
      simp [hst, hlt]
    obtain ⟨hc, ht⟩ := hjoin s hs
    rw [Option.isSome_iff_exists] at hc ht
    obtain ⟨c, hc⟩ := hc
    obtain ⟨t, ht⟩ := ht
    have hjmem : (⟨s, c, t⟩ : OverdueJoin) ∈ overdueSelected db now := by
      unfold overdueSelected
      rw [List.mem_filterMap]
      exact ⟨s, hpend, by rw [hc, ht]; rfl⟩
    exact List.mem_map.mpr ⟨⟨s, c, t⟩, hjmem, rfl⟩
  · rw [htrace]
    refine List.Nodup.sublist ?_ hnd
    have h1 : ((overduePending db now).filterMap (fun s =>
        (findContactById db s.contactId).bind fun c =>
          (findFormTemplate db s.formTemplateId).map fun t =>
            (⟨s, c, t⟩ : OverdueJoin))).map (fun j => j.s.id) |>.Sublist
        ((overduePending db now).map (fun s => s.id)) := by
      apply filterMap_map_sublist
      intro s j hf
      cases hc : findContactById db s.contactId with
      | none => rw [hc] at hf; exact absurd hf (by simp)
      | some c =>
        rw [hc] at hf
        cases ht : findFormTemplate db s.formTemplateId with
        | none => rw [ht] at hf; exact absurd hf (by simp)
        | some t =>
          rw [ht] at hf
          simp only [Option.some_bind, Option.map_some', Option.some.injEq] at hf
          rw [← hf]
    have h2 : ((overduePending db now).map (fun s => s.id)).Sublist
        (db.formSubmissions.map (fun s => s.id)) :=
      (List.filter_sublist _).map _
    exact h1.trans h2
  · exact fun s' hs' hid => hmarks s'.id hid s' hs' rfl
  · intro i hi hi2
    have htrace2 : (overdueSweep now' (overdueSweep now db).1).2 =
        (overdueSelected (overdueSweep now db).1 now').map (fun j => j.s.id) := by
      unfold overdueSweep
      rw [overdueFold_trace]
      simp
    rw [htrace2] at hi2
    rw [List.mem_map] at hi2
    obtain ⟨j, hjmem, hjid⟩ := hi2
    have hpend := overdueSelected_spec _ _ _ hjmem
    unfold overduePending at hpend
    rw [List.mem_filter] at hpend
    obtain ⟨hmem1, hcond⟩ := hpend
    have hov : j.s.status = "OVERDUE" := hmarks i hi j.s hmem1 hjid
    simp only [Bool.and_eq_true, beq_iff_eq] at hcond
    rw [hov] at hcond
    exact absurd hcond.1 (by decide)

/-- PENDING submission whose due date has passed. -/
def pendSub : FormSubmissionRow := ⟨50, 5, none, 10, "PENDING", some (-1), none⟩

/-- Form template linked to the service type. -/
def formTpl : FormTemplateRow := ⟨5, 1, "Intake", some 1⟩

/-- Store for the overdue-sweep scenario. -/
def dbC6 : DB :=
  ⟨[wsA], [], [annContact], [], [], [], [stA], [formTpl], [pendSub], [], [], [], [], 300⟩

theorem C6_overdue_exactly_once_witness :
    ((dbC6.formSubmissions.map (fun s => s.id)).Nodup ∧
     (∀ s ∈ dbC6.formSubmissions, (findContactById dbC6 s.contactId).isSome ∧
       (findFormTemplate dbC6 s.formTemplateId).isSome) ∧
     (overdueSweep 0 dbC6).2 = [50]) ∧
    (∀ i ∈ (overdueSweep 0 dbC6).2, i ∉ (overdueSweep 0 (overdueSweep 0 dbC6).1).2) :=
  ⟨⟨by decide, by decide, by decide⟩,
   (C6_overdue_exactly_once dbC6 0 0 (by decide) (by decide)).2.2.2⟩

/-! ## Hourly booking-reminder sweep (`cron '0 * * * *'`, src/services/scheduler.js)

CONFIRMED bookings starting within the next 24 hours (contact, service type
and workspace joined by `include`) are processed in order; a booking is
skipped when its conversation has `automationPaused` or when an AutomationLog
entry for `booking.reminder` + this workspace + this contact exists with
`createdAt` in the last 24 hours; otherwise the reminder is delivered
(email/WhatsApp per the contact's identifiers), a system message is appended
when a conversation exists, and one `booking.reminder` log row is written
with `createdAt = now`. -/

def msPerDay : Int := 86400000

structure ReminderJoin where
  b : BookingRow
  c : Contact
  st : ServiceTypeRow
  w : Workspace
  deriving Repr, DecidableEq

def dueBookings (db : DB) (now : Int) : List ReminderJoin :=
  (db.bookings.filter fun b =>
      b.status == "CONFIRMED" && decide (now ≤ b.dateTime) &&
        decide (b.dateTime ≤ now + msPerDay)).filterMap fun b =>
    (findContactById db b.contactId).bind fun c =>
      (findServiceType db b.serviceTypeId).bind fun st =>
        (findWorkspace db b.workspaceId).map fun w => (⟨b, c, st, w⟩ : ReminderJoin)

/-- One delivered reminder (`viaEmail`/`viaWa` mirror which identifiers the
contact has). -/
structure Reminder where
  workspaceId : Nat
  contactId : Nat
  viaEmail : Bool
  viaWa : Bool
  deriving Repr, DecidableEq

def reminderText (j : ReminderJoin) : String :=
  "Reminder: Your " ++ j.st.name ++ " appointment at " ++ j.w.name ++
    " is coming up on " ++ toLocaleString j.b.dateTime ++ "."

/-- The de-duplication guard: `automationLog.findFirst` for this workspace,
event `booking.reminder`, this contact, `createdAt` within the last 24 h. -/
def hasRecentReminderLog (logs : List LogRow) (wsId contactId : Nat) (now : Int) : Bool :=
  logs.any fun l =>
    l.workspaceId == wsId && l.event == "booking.reminder" &&
      l.contactId == some contactId && decide (now - msPerDay ≤ l.createdAt)

def reminderStep (now : Int) (acc : DB × List Reminder) (j : ReminderJoin) :
    DB × List Reminder :=
  if (match findConversation acc.1 j.b.contactId j.b.workspaceId with
      | some cv => cv.automationPaused
      | none => false) then acc
  else if hasRecentReminderLog acc.1.automationLogs j.b.workspaceId j.b.contactId now then acc
  else
    let db1 : DB :=
      match findConversation acc.1 j.b.contactId j.b.workspaceId with
      | some cv =>
        { acc.1 with messages := acc.1.messages ++
            [⟨cv.id, "OUTBOUND", "SYSTEM", reminderText j⟩] }
      | none => acc.1
    let db2 : DB := { db1 with automationLogs := db1.automationLogs ++
        [⟨j.b.workspaceId, "booking.reminder", some "send_reminder", some j.b.contactId,
          "success", none, now⟩] }
    (db2, acc.2 ++ [⟨j.b.workspaceId, j.b.contactId, j.c.email.isSome, j.c.phone.isSome⟩])

def reminderSweep (now : Int) (db : DB) : DB × List Reminder :=
  (dueBookings db now).foldl (reminderStep now) (db, [])

/-- Reminders delivered to one (workspace, contact) pair. -/
def remindersFor (rs : List Reminder) (wsId cid : Nat) : Nat :=
  (rs.filter fun r => r.workspaceId == wsId && r.contactId == cid).length

theorem remindersFor_append (a b : List Reminder) (w c : Nat) :
    remindersFor (a ++ b) w c = remindersFor a w c + remindersFor b w c := by
  unfold remindersFor
  rw [List.filter_append, List.length_append]

theorem remindersFor_nil (w c : Nat) : remindersFor [] w c = 0 := rfl

theorem hasRecentReminderLog_append (logs tail : List LogRow) (w c : Nat) (now : Int)
    (h : hasRecentReminderLog logs w c now = true) :
    hasRecentReminderLog (logs ++ tail) w c now = true := by
  unfold hasRecentReminderLog at h ⊢
  rw [List.any_append, h]
  rfl

theorem hasRecentReminderLog_of_mem (logs : List LogRow) (w c : Nat) (now : Int)
    (l : LogRow) (hl : l ∈ logs) (hw : l.workspaceId = w)
    (he : l.event = "booking.reminder") (hc : l.contactId = some c)
    (ht : now - msPerDay ≤ l.createdAt) :
    hasRecentReminderLog logs w c now = true := by
  unfold hasRecentReminderLog
  rw [List.any_eq_true]
  exact ⟨l, hl, by simp [hw, he, hc, ht]⟩

/-- Either the booking is skipped (accumulator unchanged) or the guard was
clear and exactly one reminder and one `createdAt = now` log row are
appended. -/
theorem reminderStep_cases (now : Int) (acc : DB × List Reminder) (j : ReminderJoin) :
    reminderStep now acc j = acc ∨
    (hasRecentReminderLog acc.1.automationLogs j.b.workspaceId j.b.contactId now = false ∧
     (reminderStep now acc j).2 =
       acc.2 ++ [⟨j.b.workspaceId, j.b.contactId, j.c.email.isSome, j.c.phone.isSome⟩] ∧
     (reminderStep now acc j).1.automationLogs = acc.1.automationLogs ++
       [⟨j.b.workspaceId, "booking.reminder", some "send_reminder", some j.b.contactId,
         "success", none, now⟩]) := by
  unfold reminderStep
  by_cases hpause : (match findConversation acc.1 j.b.contactId j.b.workspaceId with
      | some cv => cv.automationPaused
      | none => false) = true
  · left
    rw [if_pos hpause]
  · rw [if_neg hpause]
    by_cases hguard : hasRecentReminderLog acc.1.automationLogs j.b.workspaceId
        j.b.contactId now = true
    · left
      rw [if_pos hguard]
    · right
      rw [if_neg hguard]
      refine ⟨Bool.not_eq_true _ ▸ hguard, rfl, ?_⟩
      cases hconv : findConversation acc.1 j.b.contactId j.b.workspaceId <;> simp [hconv]

/-- Loop invariant of one sweep run: at most one reminder per (workspace,
contact), and every delivered reminder is backed by a `createdAt = now`
`booking.reminder` log row. -/
theorem reminderFold_count (now : Int) :
    ∀ (js : List ReminderJoin) (acc : DB × List Reminder) (w c : Nat),
      remindersFor acc.2 w c ≤ 1 →
      (1 ≤ remindersFor acc.2 w c →
        ∃ l ∈ acc.1.automationLogs, l.workspaceId = w ∧ l.event = "booking.reminder" ∧
          l.contactId = some c ∧ l.createdAt = now) →
      remindersFor (js.foldl (reminderStep now) acc).2 w c ≤ 1 ∧
      (1 ≤ remindersFor (js.foldl (reminderStep now) acc).2 w c →
        ∃ l ∈ (js.foldl (reminderStep now) acc).1.automationLogs,
          l.workspaceId = w ∧ l.event = "booking.reminder" ∧
          l.contactId = some c ∧ l.createdAt = now)
  | [], acc, w, c, hcount, hlog => ⟨hcount, hlog⟩
  | j :: js, acc, w, c, hcount, hlog => by
    rw [List.foldl_cons]
    rcases reminderStep_cases now acc j with hskip | ⟨hguard, htrace, hlogs⟩
    · rw [hskip]
      exact reminderFold_count now js acc w c hcount hlog
    · by_cases hpair : j.b.workspaceId = w ∧ j.b.contactId = c
      · obtain ⟨hpw, hpc⟩ := hpair
        have hzero : remindersFor acc.2 w c = 0 := by
          by_contra hz
          have h1 : 1 ≤ remindersFor acc.2 w c := by omega
          obtain ⟨l, hl, hlw, hle, hlc, hlt⟩ := hlog h1
          have : hasRecentReminderLog acc.1.automationLogs j.b.workspaceId
              j.b.contactId now = true := by
            apply hasRecentReminderLog_of_mem _ _ _ _ l hl (hpw ▸ hlw) hle (hpc ▸ hlc)
            rw [hlt]
            have : (0 : Int) ≤ msPerDay := by norm_num [msPerDay]
            omega
          rw [this] at hguard
          exact absurd hguard (by simp)
        apply reminderFold_count now js (reminderStep now acc j) w c
        · rw [htrace, remindersFor_append]
          have : remindersFor [(⟨j.b.workspaceId, j.b.contactId, j.c.email.isSome,
              j.c.phone.isSome⟩ : Reminder)] w c ≤ 1 := by
            unfold remindersFor
            cases h : (List.filter (fun r => r.workspaceId == w && r.contactId == c)
              [(⟨j.b.workspaceId, j.b.contactId, j.c.email.isSome,
                j.c.phone.isSome⟩ : Reminder)]) <;> simp_all [List.filter]
          omega
        · intro _
          refine ⟨⟨j.b.workspaceId, "booking.reminder", some "send_reminder",
            some j.b.contactId, "success", none, now⟩, ?_, by simp [hpw], rfl,
            by simp [hpc], rfl⟩
          rw [hlogs]
          simp
      · apply reminderFold_count now js (reminderStep now acc j) w c
        · rw [htrace, remindersFor_append]
          have hz : remindersFor [(⟨j.b.workspaceId, j.b.contactId, j.c.email.isSome,
              j.c.phone.isSome⟩ : Reminder)] w c = 0 := by
            unfold remindersFor
            rw [List.length_eq_zero]
            rw [List.filter_eq_nil]
            intro r hr
            simp only [List.mem_singleton] at hr
            subst hr
            simp only [Bool.and_eq_true, beq_iff_eq, not_and]
            intro h1 h2
            exact hpair ⟨h1, h2⟩
          omega
        · intro h1
          obtain ⟨l, hl, hrest⟩ := hlog (by
            rw [htrace, remindersFor_append] at h1
            have hz : remindersFor [(⟨j.b.workspaceId, j.b.contactId, j.c.email.isSome,
                j.c.phone.isSome⟩ : Reminder)] w c = 0 := by
              unfold remindersFor
              rw [List.length_eq_zero, List.filter_eq_nil]
              intro r hr
              simp only [List.mem_singleton] at hr
              subst hr
              simp only [Bool.and_eq_true, beq_iff_eq, not_and]
              intro hx hy
              exact hpair ⟨hx, hy⟩
            omega)
          refine ⟨l, ?_, hrest⟩
          rw [hlogs]
          exact List.mem_append_left _ hl

/-- A (workspace, contact) pair already guarded by a recent log receives no
reminder from the remainder of a run. -/
theorem reminderFold_blocked (now : Int) :
    ∀ (js : List ReminderJoin) (acc : DB × List Reminder) (w c : Nat),
      hasRecentReminderLog acc.1.automationLogs w c now = true →
      remindersFor (js.foldl (reminderStep now) acc).2 w c = remindersFor acc.2 w c
  | [], acc, w, c, hblocked => rfl
  | j :: js, acc, w, c, hblocked => by
    rw [List.foldl_cons]
    rcases reminderStep_cases now acc j with hskip | ⟨hguard, htrace, hlogs⟩
    · rw [hskip]
      exact reminderFold_blocked now js acc w c hblocked
    · by_cases hpair : j.b.workspaceId = w ∧ j.b.contactId = c
      · obtain ⟨hpw, hpc⟩ := hpair
        rw [hpw, hpc] at hguard
        rw [hguard] at hblocked
        exact absurd hblocked (by simp)
      · rw [reminderFold_blocked now js (reminderStep now acc j) w c
          (by rw [hlogs]; exact hasRecentReminderLog_append _ _ _ _ _ hblocked)]
        rw [htrace, remindersFor_append]
        have hz : remindersFor [(⟨j.b.workspaceId, j.b.contactId, j.c.email.isSome,
            j.c.phone.isSome⟩ : Reminder)] w c = 0 := by
          unfold remindersFor
          rw [List.length_eq_zero, List.filter_eq_nil]
          intro r hr
          simp only [List.mem_singleton] at hr
          subst hr
          simp only [Bool.and_eq_true, beq_iff_eq, not_and]
          intro hx hy
          exact hpair ⟨hx, hy⟩
        omega

/-- C5: across two runs of the hourly reminder sweep whose second run falls
within the 24-hour guard window of the first, at most one reminder is
delivered per (workspace, contact); in particular the second run delivers
nothing to any contact the first run reminded. -/
theorem C5_reminder_at_most_once (db : DB) (now now' : Int)
    (hwin : now' ≤ now + msPerDay) :
    (∀ wsId cid,
      remindersFor ((reminderSweep now db).2 ++
          (reminderSweep now' (reminderSweep now db).1).2) wsId cid ≤ 1) ∧
    (∀ wsId cid, 1 ≤ remindersFor (reminderSweep now db).2 wsId cid →
      remindersFor (reminderSweep now' (reminderSweep now db).1).2 wsId cid = 0) := by
  have hrun1 : ∀ w c,
      remindersFor (reminderSweep now db).2 w c ≤ 1 ∧
      (1 ≤ remindersFor (reminderSweep now db).2 w c →
        ∃ l ∈ (reminderSweep now db).1.automationLogs,
          l.workspaceId = w ∧ l.event = "booking.reminder" ∧
          l.contactId = some c ∧ l.createdAt = now) := by
    intro w c
    exact reminderFold_count now (dueBookings db now) (db, []) w c
      (by rw [remindersFor_nil]; omega)
      (by rw [remindersFor_nil]; omega)
  have hsecond : ∀ w c, 1 ≤ remindersFor (reminderSweep now db).2 w c →
      remindersFor (reminderSweep now' (reminderSweep now db).1).2 w c = 0 := by
    intro w c h1
    obtain ⟨l, hl, hlw, hle, hlc, hlt⟩ := (hrun1 w c).2 h1
    have hblocked : hasRecentReminderLog (reminderSweep now db).1.automationLogs
        w c now' = true := by
      apply hasRecentReminderLog_of_mem _ _ _ _ l hl hlw hle hlc
      rw [hlt]
      omega
    exact reminderFold_blocked now' (dueBookings (reminderSweep now db).1 now')
      ((reminderSweep now db).1, []) w c hblocked
  refine ⟨?_, hsecond⟩
  intro w c
  rw [remindersFor_append]
  have hrun2 : remindersFor (reminderSweep now' (reminderSweep now db).1).2 w c ≤ 1 :=
    (reminderFold_count now' (dueBookings (reminderSweep now db).1 now')
      ((reminderSweep now db).1, []) w c
      (by rw [remindersFor_nil]; omega)
      (by rw [remindersFor_nil]; omega)).1
  by_cases h1 : 1 ≤ remindersFor (reminderSweep now db).2 w c
  · have h0 := hsecond w c h1
    have := (hrun1 w c).1
    omega
  · have h0 : remindersFor (reminderSweep now db).2 w c = 0 := by omega
    omega

/-- Ann's conversation without a pause, for the reminder scenario. -/
def convOpen : Conversation := ⟨21, 1, 10, "open", false⟩

/-- CONFIRMED booking starting one hour from the sweep time. -/
def dueBooking : BookingRow := ⟨41, 1, 10, 1, 3600000, 5400000, "CONFIRMED", none⟩

/-- Store for the reminder-sweep scenario. -/
def dbC5 : DB :=
  ⟨[wsA], [], [annContact], [convOpen], [], [dueBooking], [stA], [], [], [], [], [], [], 400⟩

theorem C5_reminder_at_most_once_witness :
    ((0 : Int) ≤ 0 + msPerDay ∧
     (reminderSweep 0 dbC5).2 = [⟨1, 10, true, true⟩] ∧
     (reminderSweep 0 (reminderSweep 0 dbC5).1).2 = []) ∧
    (∀ wsId cid,
      remindersFor ((reminderSweep 0 dbC5).2 ++
          (reminderSweep 0 (reminderSweep 0 dbC5).1).2) wsId cid ≤ 1) :=
  ⟨⟨by decide, by decide, by decide⟩,
   (C5_reminder_at_most_once dbC5 0 0 (by decide)).1⟩

end CareOps
